import Mathlib

/-!
# VorteX dashboard controller (`js/app.js`): embedding and properties

The script is embedded as pure functions over an explicit `State` (the DOM nodes the script reads
and writes, plus a log of the requests handed to `fetch`).  An `async` function becomes a
computation in the monad `JS`, which threads the state and carries a thrown error (a rejected
promise); `await` is sequencing.  Only one operation runs at a time: interleavings of overlapping
requests are outside the embedding.

What the browser supplies and the script cannot fix (`fetch`, `JSON.parse`, the digits of a
non-integer number, `toUpperCase`) is the record `Platform`; every property is proved for every
platform.  Strings are sequences of Unicode scalar values.
-/

namespace VorteX

/-! ## JavaScript values -/

/-- A Number: `dec m k` is the finite value `m / 10 ^ k` (every binary64 value is such a decimal
fraction); negative zero is identified with zero. -/
inductive JSNumber where
  | nan
  | inf (negative : Bool)
  | dec (mant : Int) (scale : Nat)
deriving DecidableEq, Repr

/-- The integer `n` as a Number. -/
def JSNumber.ofInt (n : Int) : JSNumber := .dec n 0

/-- The values a response payload can hold (what `JSON.parse` returns, or the raw text), and
`undefined`. An object is its list of own properties. -/
inductive JSValue where
  | undefined
  | null
  | bool (b : Bool)
  | num (n : JSNumber)
  | str (s : String)
  | arr (items : List JSValue)
  | obj (props : List (String × JSValue))

/-- The built-in errors the script can meet: `fetch` and `Response.text` reject with a `TypeError`
or an `AbortError`, `JSON.parse` and an invalid selector throw a `SyntaxError`, reading a property
of `null` throws a `TypeError`. -/
inductive ErrorKind where
  | typeError
  | syntaxError
  | abortError
deriving DecidableEq, Repr

/-- An error object: its kind fixes `name`, and `message` is free. -/
structure JSError where
  kind : ErrorKind
  message : String
deriving DecidableEq, Repr

/-- The `name` property of an error. -/
def JSError.name (e : JSError) : String :=
  match e.kind with
  | .typeError => "TypeError"
  | .syntaxError => "SyntaxError"
  | .abortError => "AbortError"

/-- The call `String(err)` for an error object (`Error.prototype.toString`). -/
def JSError.toString (e : JSError) : String :=
  if e.message = "" then e.name else e.name ++ ": " ++ e.message

/-! ## The platform -/

/-- The options object given to `fetch`; an absent property is `none`. -/
structure RequestInit where
  method : Option String := none
  headers : List (String × String) := []
  body : Option String := none
  credentials : Option String := none
deriving DecidableEq, Repr

/-- What the script uses of a `Response`: the `ok` flag, and what `text()` resolves to or
rejects with. -/
structure Response where
  ok : Bool
  text : Except JSError String

/-- The object literal built by `saveConfigForGuild`, property by property. -/
structure ConfigPayload where
  prefix_ : String
  timezone : String
  welcomeChannel : String
  welcomeMessage : String
  welcomeImage : String
  maxWarns : JSNumber
  antispam : Bool
  logChannel : String
  ticketCategory : String
  ticketTranscript : String
deriving DecidableEq, Repr

/-- The browser functions the script calls. `fetch url init` is the response, or the error
`fetch` rejects with when no response is obtained; `jsonParse` is `JSON.parse` (an error is the
`SyntaxError` it throws); `numberToString` gives the digits `Number::toString` produces for a
finite number that is not an integer below `10 ^ 21` in magnitude; `toUpperCase` is
`String.prototype.toUpperCase`. -/
structure Platform where
  fetch : String → RequestInit → Except JSError Response
  jsonParse : String → Except JSError JSValue
  numberToString : JSNumber → String
  toUpperCase : String → String

/-! ## Strings -/

/-- The code points `String.prototype.trim` removes: ECMAScript `WhiteSpace` and
`LineTerminator`. -/
def isWhiteSpace (c : Char) : Bool :=
  let n := c.toNat
  n = 0x9 || n = 0xA || n = 0xB || n = 0xC || n = 0xD || n = 0x20 || n = 0xA0 || n = 0x1680 ||
  (0x2000 ≤ n && n ≤ 0x200A) || n = 0x2028 || n = 0x2029 || n = 0x202F || n = 0x205F ||
  n = 0x3000 || n = 0xFEFF

/-- Removes leading and trailing white space from a list of characters. -/
def trimChars (cs : List Char) : List Char :=
  ((cs.dropWhile isWhiteSpace).reverse.dropWhile isWhiteSpace).reverse

/-- The method `String.prototype.trim`. -/
def trim (s : String) : String := String.mk (trimChars s.data)

/-! ## Numbers from strings and back -/

/-- The value of a digit in a base up to sixteen. -/
def digitValue (c : Char) : Nat :=
  if c.isDigit then c.toNat - 48
  else if 'a' ≤ c ∧ c ≤ 'f' then c.toNat - 87
  else c.toNat - 55

/-- Whether `c` is a digit of the given base (2, 8, 10 or 16). -/
def isDigitOf (base : Nat) (c : Char) : Bool :=
  (c.isDigit || ('a' ≤ c && c ≤ 'f') || ('A' ≤ c && c ≤ 'F')) && digitValue c < base

/-- The number a digit string denotes in the given base. -/
def digitsValue (base : Nat) (ds : List Char) : Nat :=
  ds.foldl (fun acc c => acc * base + digitValue c) 0

/-- The decimal fraction `m / 10 ^ k` in lowest terms of the scale. -/
def JSNumber.normalize : Int → Nat → JSNumber
  | m, 0 => .dec m 0
  | m, k + 1 => if m % 10 = 0 then JSNumber.normalize (m / 10) k else .dec m (k + 1)

/-- The number `m * 10 ^ e`. -/
def JSNumber.scientific (m : Int) (e : Int) : JSNumber :=
  if 0 ≤ e then .dec (m * 10 ^ e.toNat) 0 else JSNumber.normalize m (-e).toNat

/-- The negation of a Number. -/
def JSNumber.neg : JSNumber → JSNumber
  | .nan => .nan
  | .inf b => .inf (!b)
  | .dec m k => .dec (-m) k

/-- An `ExponentPart` after its indicator: digits with an optional sign. -/
def parseSignedInteger (cs : List Char) : Option Int :=
  let digits (ds : List Char) : Option Nat :=
    if ds ≠ [] ∧ ds.all Char.isDigit then some (digitsValue 10 ds) else none
  match cs with
  | '+' :: ds => (digits ds).map Int.ofNat
  | '-' :: ds => (digits ds).map (fun n => -Int.ofNat n)
  | ds => (digits ds).map Int.ofNat

/-- A `StrUnsignedDecimalLiteral`: `Infinity`, or digits with an optional fraction and an
optional exponent, at least one digit before the exponent. -/
def parseUnsignedDecimal (cs : List Char) : Option JSNumber :=
  if cs = "Infinity".data then some (.inf false) else
  let ip := cs.takeWhile Char.isDigit
  let r1 := cs.dropWhile Char.isDigit
  let fp := match r1 with
    | '.' :: t => t.takeWhile Char.isDigit
    | _ => []
  let r2 := match r1 with
    | '.' :: t => t.dropWhile Char.isDigit
    | _ => r1
  if ip = [] ∧ fp = [] then none else
  let mant : Int := Int.ofNat (digitsValue 10 (ip ++ fp))
  match r2 with
  | [] => some (JSNumber.scientific mant (-(Int.ofNat fp.length)))
  | c :: t =>
    if c = 'e' ∨ c = 'E' then
      (parseSignedInteger t).map (fun e => JSNumber.scientific mant (e - Int.ofNat fp.length))
    else none

/-- A `StrNumericLiteral`: a binary, octal or hexadecimal integer without sign, or a decimal
literal with an optional sign. -/
def parseStrNumericLiteral (cs : List Char) : Option JSNumber :=
  let based (base : Nat) (ds : List Char) : Option JSNumber :=
    if ds ≠ [] ∧ ds.all (isDigitOf base) then some (.ofInt (Int.ofNat (digitsValue base ds)))
    else none
  match cs with
  | '0' :: 'x' :: ds => based 16 ds
  | '0' :: 'X' :: ds => based 16 ds
  | '0' :: 'o' :: ds => based 8 ds
  | '0' :: 'O' :: ds => based 8 ds
  | '0' :: 'b' :: ds => based 2 ds
  | '0' :: 'B' :: ds => based 2 ds
  | '+' :: ds => parseUnsignedDecimal ds
  | '-' :: ds => (parseUnsignedDecimal ds).map JSNumber.neg
  | ds => parseUnsignedDecimal ds

/-- The conversion `StringToNumber`: white space is trimmed, the empty string is `0`, a numeric
literal is its mathematical value, anything else is `NaN`. The value is not rounded to binary64:
it is the result of the conversion whenever the literal denotes a binary64 value, which every
integer of magnitude at most `2 ^ 53` is. -/
def StringToNumber (s : String) : JSNumber :=
  let cs := trimChars s.data
  if cs = [] then .ofInt 0 else (parseStrNumericLiteral cs).getD .nan

/-- The decimal numeral of an integer, with a minus sign when negative. -/
def decimalString (n : Int) : String :=
  if n < 0 then "-" ++ Nat.repr n.natAbs else Nat.repr n.natAbs

mutual
/-- The call `String(v)` (the conversion `ToString`, also the conversion to a `DOMString`): an
integer below `10 ^ 21` in magnitude prints as its decimal numeral, an object is a plain object
of `JSON.parse` and prints as `[object Object]`, an array joins its elements. -/
def jsString (P : Platform) : JSValue → String
  | .undefined => "undefined"
  | .null => "null"
  | .bool b => if b then "true" else "false"
  | .num .nan => "NaN"
  | .num (.inf b) => if b then "-Infinity" else "Infinity"
  | .num (.dec m k) =>
    match JSNumber.normalize m k with
    | .dec n 0 => if n.natAbs < 10 ^ 21 then decimalString n else P.numberToString (.dec n 0)
    | x => P.numberToString x
  | .str s => s
  | .arr items => String.intercalate "," (joinItems P items)
  | .obj _ => "[object Object]"
/-- The elements of an array as `Array.prototype.join` prints them: `undefined` and `null` as the
empty string. -/
def joinItems (P : Platform) : List JSValue → List String
  | [] => []
  | .undefined :: rest => "" :: joinItems P rest
  | .null :: rest => "" :: joinItems P rest
  | v :: rest => jsString P v :: joinItems P rest
end

/-- The truthiness of a value (`ToBoolean`). -/
def truthy : JSValue → Bool
  | .undefined => false
  | .null => false
  | .bool b => b
  | .num .nan => false
  | .num (.inf _) => true
  | .num (.dec m _) => m ≠ 0
  | .str s => s ≠ ""
  | .arr _ => true
  | .obj _ => true

/-- The operator `a || b`. -/
def jsOr (a b : JSValue) : JSValue := if truthy a then a else b

/-- The operator `a ?? b`. -/
def nullish (a b : JSValue) : JSValue :=
  match a with
  | .undefined => b
  | .null => b
  | v => v

/-- The call `Number(v)` (`ToNumber`). -/
def Number (P : Platform) : JSValue → JSNumber
  | .undefined => .nan
  | .null => .ofInt 0
  | .bool b => .ofInt (if b then 1 else 0)
  | .num n => n
  | .str s => StringToNumber s
  | v => StringToNumber (jsString P v)

/-- The abstract operation `QuoteJSONString`, for one character. -/
def quoteJSONChar (c : Char) : List Char :=
  if c = '"' then ['\\', '"']
  else if c = '\\' then ['\\', '\\']
  else if c.toNat = 0x8 then ['\\', 'b']
  else if c.toNat = 0x9 then ['\\', 't']
  else if c.toNat = 0xA then ['\\', 'n']
  else if c.toNat = 0xC then ['\\', 'f']
  else if c.toNat = 0xD then ['\\', 'r']
  else if c.toNat < 0x20 then
    ['\\', 'u', '0', '0', Nat.digitChar (c.toNat / 16), Nat.digitChar (c.toNat % 16)]
  else [c]

/-- The abstract operation `QuoteJSONString`. -/
def quoteJSONString (s : String) : String :=
  String.mk ('"' :: (s.data.flatMap quoteJSONChar ++ ['"']))

/-- How `JSON.stringify` prints a Number: `null` unless it is finite. -/
def jsonNumber (P : Platform) (n : JSNumber) : String :=
  match n with
  | .dec _ _ => jsString P (.num n)
  | _ => "null"

/-- The call `JSON.stringify(payload)` on the object literal of `saveConfigForGuild`: the
properties in the order of the literal, without white space. -/
def JSON_stringify (P : Platform) (c : ConfigPayload) : String :=
  "\x7b" ++
  "\"prefix\":" ++ quoteJSONString c.prefix_ ++
  ",\"timezone\":" ++ quoteJSONString c.timezone ++
  ",\"welcomeChannel\":" ++ quoteJSONString c.welcomeChannel ++
  ",\"welcomeMessage\":" ++ quoteJSONString c.welcomeMessage ++
  ",\"welcomeImage\":" ++ quoteJSONString c.welcomeImage ++
  ",\"maxWarns\":" ++ jsonNumber P c.maxWarns ++
  ",\"antispam\":" ++ (if c.antispam then "true" else "false") ++
  ",\"logChannel\":" ++ quoteJSONString c.logChannel ++
  ",\"ticketCategory\":" ++ quoteJSONString c.ticketCategory ++
  ",\"ticketTranscript\":" ++ quoteJSONString c.ticketTranscript ++
  "\x7d"

/-- The property read `v.key`: a `TypeError` on `undefined` and `null`, the own property of an
object, and `undefined` otherwise. The script reads only the keys of a guild summary and of a
guild config, none of which is defined on a built-in prototype. -/
def getProp (v : JSValue) (key : String) : Except JSError JSValue :=
  match v with
  | .undefined =>
    .error ⟨.typeError, "Cannot read properties of undefined (reading '" ++ key ++ "')"⟩
  | .null => .error ⟨.typeError, "Cannot read properties of null (reading '" ++ key ++ "')"⟩
  | .obj props => .ok ((props.lookup key).getD .undefined)
  | _ => .ok .undefined

/-- The test `Array.isArray`. -/
def isArray : JSValue → Bool
  | .arr _ => true
  | _ => false

/-! ## The document -/

/-- The status line `#opStatus`: its text and its inline colour. -/
structure StatusEl where
  textContent : String
  color : String
deriving DecidableEq, Repr

/-- An `option` element of the guild selector. -/
structure OptionEl where
  value : String
  textContent : String
deriving DecidableEq, Repr

/-- The selector `#guildSelect`: its options in document order and its current value. -/
structure SelectEl where
  options : List OptionEl
  value : String
deriving DecidableEq, Repr

/-- Modelled from the spec: the markup (`index.html`) is not among the sources. The ten config
controls are slots that hold a string each, named by their element ids; assigning to `value`
stores the string conversion of what is assigned. -/
structure Form where
  prefixInput : String
  timezoneInput : String
  welcomeChannel : String
  welcomeMessage : String
  welcomeImage : String
  maxWarns : String
  antispam : String
  logChannel : String
  ticketCategory : String
  ticketTranscript : String
deriving DecidableEq, Repr

/-- Modelled from the spec: the markup (`index.html`) is not among the sources. A page panel is an
element of class `page`, with its id and whether its class list holds `hidden`. -/
structure Panel where
  id : String
  hidden : Bool
deriving DecidableEq, Repr

/-- An element of class `nav-btn`: its `data-page` attribute and whether its class list holds
`active`. -/
structure NavBtn where
  page : String
  active : Bool
deriving DecidableEq, Repr

/-- A call of `fetch`: the address and the options. -/
structure Request where
  url : String
  init : RequestInit
deriving DecidableEq, Repr

/-- The document as the script sees it, and the calls of `fetch` made so far. -/
structure State where
  opStatus : StatusEl
  guildSelect : SelectEl
  manualGuild : String
  form : Form
  pageTitle : String
  pages : List Panel
  navBtns : List NavBtn
  requests : List Request
deriving DecidableEq, Repr

/-! ## Computations -/

/-- A computation of the script: from a state, a value or a thrown error, and the state reached. -/
def JS (α : Type) : Type := State → Except JSError α × State

instance : Monad JS where
  pure a := fun s => (.ok a, s)
  bind m f := fun s =>
    match m s with
    | (.ok a, s1) => f a s1
    | (.error e, s1) => (.error e, s1)

/-- A pure step that may throw. -/
def JS.lift {α : Type} (x : Except JSError α) : JS α := fun s => (x, s)

/-- The current state. -/
def JS.get : JS State := fun s => (.ok s, s)

/-- A change of the document. -/
def JS.modify (f : State → State) : JS Unit := fun s => (.ok (), f s)

/-- The block `try { body } catch (err) { handler }`. -/
def JS.tryCatch {α : Type} (body : JS α) (handler : JSError → JS α) : JS α := fun s =>
  match body s with
  | (.ok a, s1) => (.ok a, s1)
  | (.error e, s1) => handler e s1

/-! ## `app.js` -/

/-- The constant `API_BASE`. -/
def API_BASE : String := "https://vorte-x--dylansaulrosa.replit.app"

/-- The function `showStatus(msg, type)`; `type` is `"info"` when the caller gives none. -/
def showStatus (msg : String) (type : String) : JS Unit :=
  JS.modify fun s => { s with
    opStatus := {
      textContent := msg
      color := if type = "error" then "#fca5a5" else if type = "ok" then "#bbf7d0" else "" } }

/-- The result object of `apiFetch`; a property the object lacks reads as `undefined`. -/
structure ApiResult where
  ok : Bool
  json : JSValue := .undefined
  error : Option String := none

/-- The call `fetch(url, init)`: the request is recorded and the platform answers. -/
def fetch (P : Platform) (url : String) (init : RequestInit) : JS Response := fun s =>
  (P.fetch url init, { s with requests := s.requests ++ [⟨url, init⟩] })

/-- The function `apiFetch(path, opts)`. The options are `credentials: "include"` overridden by
the properties of `opts`. -/
def apiFetch (P : Platform) (path : String) (opts : RequestInit) : JS ApiResult :=
  let url := API_BASE ++ path
  JS.tryCatch
    (do
      let res ← fetch P url { opts with credentials := some (opts.credentials.getD "include") }
      let text ← JS.lift res.text
      JS.tryCatch
        (do
          let parsed ← JS.lift (P.jsonParse text)
          pure { ok := res.ok, json := parsed })
        (fun _ => pure { ok := res.ok, json := .str text }))
    (fun err =>
      pure {
        ok := false
        error := some (if err.message ≠ "" then err.message else err.toString) })

/-- An assignment to the `value` of config controls. -/
def setForm (f : Form → Form) : JS Unit :=
  JS.modify fun s => { s with form := f s.form }

/-- The placeholder that `loadGuilds` writes through `innerHTML`. -/
def placeholder : OptionEl := ⟨"", "Select a server (guild)"⟩

/-- The callback of `json.forEach` in `loadGuilds`: a new option takes the string conversion of
`g.id` as its `value` and that of `g.name` as its `textContent` (the empty string for `undefined`
and `null`), and is appended to the selector. -/
def appendGuild (P : Platform) (g : JSValue) : JS Unit := do
  let id ← JS.lift (getProp g "id")
  let name ← JS.lift (getProp g "name")
  let opt : OptionEl := {
    value := jsString P id
    textContent := jsString P (nullish name (.str "")) }
  JS.modify fun s => { s with
    guildSelect := { s.guildSelect with options := s.guildSelect.options ++ [opt] } }

/-- The function `loadGuilds()`. Assigning `innerHTML` leaves the placeholder as the only option,
so the selector's value becomes empty. -/
def loadGuilds (P : Platform) : JS Unit := do
  showStatus "Loading servers..." "info"
  let r ← apiFetch P "/api/guilds" {}
  if !r.ok then
    showStatus ("Could not fetch servers from backend. Paste Guild ID manually or implement " ++
      "/api/guilds at backend.") "error"
  else do
    JS.modify fun s => { s with guildSelect := { options := [placeholder], value := "" } }
    match r.json with
    | .arr items => do
      items.forM (appendGuild P)
      showStatus "Servers loaded. Choose one." "ok"
    | _ => showStatus "Unexpected response from /api/guilds" "error"

/-- The function `loadConfigForGuild(guildId)`. -/
def loadConfigForGuild (P : Platform) (guildId : String) : JS Unit := do
  if guildId = "" then
    showStatus "No guild selected." "info"
  else do
    showStatus "Loading server configuration..." "info"
    let r ← apiFetch P ("/api/guild/" ++ guildId ++ "/config") {}
    if !r.ok then
      showStatus "No config found or endpoint missing. You can still save a new config." "error"
    else do
      let json := r.json
      let v ← JS.lift (getProp json "prefix")
      setForm fun f => { f with prefixInput := jsString P (nullish v (.str "")) }
      let v ← JS.lift (getProp json "timezone")
      setForm fun f => { f with timezoneInput := jsString P (nullish v (.str "")) }
      let v ← JS.lift (getProp json "welcomeChannel")
      setForm fun f => { f with welcomeChannel := jsString P (nullish v (.str "")) }
      let v ← JS.lift (getProp json "welcomeMessage")
      setForm fun f => { f with welcomeMessage := jsString P (nullish v (.str "")) }
      let v ← JS.lift (getProp json "welcomeImage")
      setForm fun f => { f with welcomeImage := jsString P (nullish v (.str "")) }
      let v ← JS.lift (getProp json "maxWarns")
      setForm fun f => { f with maxWarns := jsString P (nullish v (.str "")) }
      let v ← JS.lift (getProp json "antispam")
      setForm fun f => { f with
        antispam := jsString P (.str (jsString P (nullish v (.str "true")))) }
      let v ← JS.lift (getProp json "logChannel")
      setForm fun f => { f with logChannel := jsString P (nullish v (.str "")) }
      let v ← JS.lift (getProp json "ticketCategory")
      setForm fun f => { f with ticketCategory := jsString P (nullish v (.str "")) }
      let v ← JS.lift (getProp json "ticketTranscript")
      setForm fun f => { f with ticketTranscript := jsString P (nullish v (.str "")) }
      showStatus "Configuration loaded." "ok"

/-- The object literal `payload` of `saveConfigForGuild`, from the form. -/
def buildPayload (P : Platform) (f : Form) : ConfigPayload where
  prefix_ := trim f.prefixInput
  timezone := trim f.timezoneInput
  welcomeChannel := trim f.welcomeChannel
  welcomeMessage := trim f.welcomeMessage
  welcomeImage := trim f.welcomeImage
  maxWarns := Number P (jsOr (.str f.maxWarns) (.num (.ofInt 0)))
  antispam := f.antispam = "true"
  logChannel := trim f.logChannel
  ticketCategory := trim f.ticketCategory
  ticketTranscript := trim f.ticketTranscript

/-- The function `saveConfigForGuild(guildId)`. -/
def saveConfigForGuild (P : Platform) (guildId : String) : JS Unit := do
  let s ← JS.get
  let gid := if guildId ≠ "" then guildId else trim s.manualGuild
  if gid = "" then
    showStatus "Please select or paste a Guild ID first." "error"
  else do
    let payload := buildPayload P s.form
    showStatus "Saving configuration..." "info"
    let r ← apiFetch P ("/api/guild/" ++ gid ++ "/config") {
      method := some "POST"
      headers := [("Content-Type", "application/json")]
      body := some (JSON_stringify P payload) }
    if !r.ok then
      showStatus "Failed to save config. Check backend logs or endpoint." "error"
    else
      showStatus "Configuration saved successfully." "ok"

/-- The click handler of `#saveBtn` in `setupEvents`. -/
def saveBtnClick (P : Platform) : JS Unit := do
  let s ← JS.get
  let selected := s.guildSelect.value
  saveConfigForGuild P selected

/-- The own properties of the object literal `mapping` in `switchPage`. -/
def mapping (pageKey : String) : Option String :=
  if pageKey = "overview" then some "#overviewPage"
  else if pageKey = "general" then some "#generalPage"
  else if pageKey = "welcome" then some "#welcomePage"
  else if pageKey = "moderation" then some "#moderationPage"
  else if pageKey = "tickets" then some "#ticketsPage"
  else if pageKey = "roles" then some "#rolesPage"
  else none

/-- The property names `mapping` inherits from `Object.prototype`; what they hold is truthy and
is not a valid selector. -/
def inheritedKeys : List String :=
  ["constructor", "__defineGetter__", "__defineSetter__", "hasOwnProperty", "__lookupGetter__",
   "__lookupSetter__", "isPrototypeOf", "propertyIsEnumerable", "toString", "valueOf",
   "__proto__", "toLocaleString"]

/-- The call `document.querySelector(sel).classList.remove("hidden")` over the panels: the first
panel with the id loses `hidden`; `none` when no panel has the id. -/
def showFirst (sel : String) : List Panel → Option (List Panel)
  | [] => none
  | p :: ps =>
    if "#" ++ p.id = sel then some ({ p with hidden := false } :: ps)
    else (showFirst sel ps).map (p :: ·)

/-- The function `switchPage(pageKey)`. The panels are the elements of class `page`, and a page
selector resolves among them. -/
def switchPage (P : Platform) (pageKey : String) : JS Unit := do
  JS.modify fun s => { s with
    pageTitle :=
      P.toUpperCase (String.mk (pageKey.data.take 1)) ++ String.mk (pageKey.data.drop 1) }
  JS.modify fun s => { s with pages := s.pages.map fun p => { p with hidden := true } }
  match mapping pageKey with
  | some sel => do
    let s ← JS.get
    match showFirst sel s.pages with
    | some pages => JS.modify fun s => { s with pages := pages }
    | none =>
      JS.lift (.error ⟨.typeError, "Cannot read properties of null (reading 'classList')"⟩)
  | none =>
    if pageKey ∈ inheritedKeys then
      JS.lift (.error ⟨.syntaxError, "Failed to execute 'querySelector' on 'Document'"⟩)
    else pure ()
  JS.modify fun s => { s with
    navBtns := s.navBtns.map fun b => { b with active := b.page = pageKey } }

/-! ## Results of a request and sample data -/

/-- The options `apiFetch` hands to `fetch` for the options `opts` of its caller. -/
def fetchInit (opts : RequestInit) : RequestInit :=
  { opts with credentials := some (opts.credentials.getD "include") }

/-- The result object of `apiFetch(path, opts)`, case by case on what the platform answers: no
response, a body that cannot be read, a JSON body, any other body. -/
def apiResult (P : Platform) (path : String) (opts : RequestInit) : ApiResult :=
  match P.fetch (API_BASE ++ path) (fetchInit opts) with
  | .error err =>
    { ok := false, error := some (if err.message ≠ "" then err.message else err.toString) }
  | .ok res =>
    match res.text with
    | .error err =>
      { ok := false, error := some (if err.message ≠ "" then err.message else err.toString) }
    | .ok text =>
      match P.jsonParse text with
      | .ok parsed => { ok := res.ok, json := parsed }
      | .error _ => { ok := res.ok, json := .str text }

/-- The options of the request `saveConfigForGuild` sends for a form. -/
def postInit (P : Platform) (f : Form) : RequestInit where
  method := some "POST"
  headers := [("Content-Type", "application/json")]
  body := some (JSON_stringify P (buildPayload P f))
  credentials := some "include"

/-- The options of a request sent without options of the caller. -/
def getInit : RequestInit := fetchInit {}

/-- The address of a guild's config endpoint. -/
def configUrl (gid : String) : String := API_BASE ++ ("/api/guild/" ++ gid ++ "/config")

/-- A form with every control empty. -/
def emptyForm : Form := ⟨"", "", "", "", "", "", "", "", "", ""⟩

/-- The six panels, all but the overview hidden. -/
def samplePages : List Panel :=
  [⟨"overviewPage", false⟩, ⟨"generalPage", true⟩, ⟨"welcomePage", true⟩,
   ⟨"moderationPage", true⟩, ⟨"ticketsPage", true⟩, ⟨"rolesPage", true⟩]

/-- The six navigation buttons, the overview active. -/
def sampleNav : List NavBtn :=
  [⟨"overview", true⟩, ⟨"general", false⟩, ⟨"welcome", false⟩, ⟨"moderation", false⟩,
   ⟨"tickets", false⟩, ⟨"roles", false⟩]

/-- A document after start-up: nothing selected, nothing typed, no request made. -/
def sampleState : State where
  opStatus := ⟨"", ""⟩
  guildSelect := ⟨[placeholder], ""⟩
  manualGuild := ""
  form := emptyForm
  pageTitle := "Overview"
  pages := samplePages
  navBtns := sampleNav
  requests := []

/-- A platform without connectivity: every `fetch` rejects. -/
def offline : Platform where
  fetch := fun _ _ => .error ⟨.typeError, "Failed to fetch"⟩
  jsonParse := fun _ => .error ⟨.syntaxError, "Unexpected token"⟩
  numberToString := fun _ => ""
  toUpperCase := String.toUpper

/-- A platform whose backend answers every request with status 404 and the body `Not Found`. -/
def notFound : Platform where
  fetch := fun _ _ => .ok ⟨false, .ok "Not Found"⟩
  jsonParse := fun _ => .error ⟨.syntaxError, "Unexpected token"⟩
  numberToString := fun _ => ""
  toUpperCase := String.toUpper

/-- A platform whose backend answers every request with status 200 and the JSON body `null`. -/
def nullBody : Platform where
  fetch := fun _ _ => .ok ⟨true, .ok "null"⟩
  jsonParse := fun t =>
    if t = "null" then .ok .null else .error ⟨.syntaxError, "Unexpected token"⟩
  numberToString := fun _ => ""
  toUpperCase := String.toUpper

/-! ## Typed payloads -/

/-- A guild summary of the data model: `{ id: string, name: string }`. -/
structure GuildSummary where
  id : String
  name : String
deriving DecidableEq, Repr

/-- Reads a value as a guild summary: its `id` and `name` are strings. -/
def readGuildSummary (v : JSValue) : Option GuildSummary :=
  match getProp v "id", getProp v "name" with
  | .ok (.str i), .ok (.str n) => some ⟨i, n⟩
  | _, _ => none

/-- Reads the elements of an array as guild summaries, all of them or none. -/
def readGuildSummaries : List JSValue → Option (List GuildSummary)
  | [] => some []
  | v :: vs =>
    match readGuildSummary v, readGuildSummaries vs with
    | some g, some gs => some (g :: gs)
    | _, _ => none

/-- The option `loadGuilds` makes of a guild summary. -/
def GuildSummary.toOption (g : GuildSummary) : OptionEl := ⟨g.id, g.name⟩

/-- The message of `loadGuilds` when the request fails. -/
def guildsUnavailable : String :=
  "Could not fetch servers from backend. Paste Guild ID manually or implement " ++
    "/api/guilds at backend."

/-- The body of a guild list with two guilds. -/
def twoGuildsText : String :=
  "[\x7b\"id\":\"123\",\"name\":\"Alpha\"\x7d," ++
    "\x7b\"id\":\"456\",\"name\":\"Beta\",\"icon\":null\x7d]"

/-- A platform whose backend lists two guilds. -/
def twoGuilds : Platform where
  fetch := fun _ _ => .ok ⟨true, .ok twoGuildsText⟩
  jsonParse := fun t =>
    if t = twoGuildsText then
      .ok (.arr [
        .obj [("id", .str "123"), ("name", .str "Alpha")],
        .obj [("id", .str "456"), ("name", .str "Beta"), ("icon", .null)]])
    else .error ⟨.syntaxError, "Unexpected token"⟩
  numberToString := fun _ => ""
  toUpperCase := String.toUpper

/-- A platform whose backend answers every request with status 200 and an HTML page. -/
def htmlPage : Platform where
  fetch := fun _ _ => .ok ⟨true, .ok "<html></html>"⟩
  jsonParse := fun _ => .error ⟨.syntaxError, "Unexpected token"⟩
  numberToString := fun _ => ""
  toUpperCase := String.toUpper

/-! ## Pages -/

/-- The six page identifiers. -/
def pageKeys : List String := ["overview", "general", "welcome", "moderation", "tickets", "roles"]

/-- The ids of the six panels. -/
def pageIds : List String := pageKeys.map (· ++ "Page")

/-- The ids of the panels that are visible (their class list lacks `hidden`). -/
def visiblePanels (s : State) : List String :=
  (s.pages.filter fun p => !p.hidden).map Panel.id

/-- The `data-page` values of the navigation buttons that are active. -/
def activeNav (s : State) : List String :=
  (s.navBtns.filter fun b => b.active).map NavBtn.page

/-- The sample document while the general page is shown. -/
def generalShown : State :=
  { sampleState with
    pageTitle := "General"
    pages := [⟨"overviewPage", true⟩, ⟨"generalPage", false⟩, ⟨"welcomePage", true⟩,
      ⟨"moderationPage", true⟩, ⟨"ticketsPage", true⟩, ⟨"rolesPage", true⟩]
    navBtns := [⟨"overview", false⟩, ⟨"general", true⟩, ⟨"welcome", false⟩,
      ⟨"moderation", false⟩, ⟨"tickets", false⟩, ⟨"roles", false⟩] }

/-! ## Guild configs -/

/-- A guild config of the data model as a load response carries it: every field may be absent;
a present field has its type, `maxWarns` being an integer of magnitude at most `2 ^ 53`. -/
structure PartialConfig where
  prefix_ : Option String := none
  timezone : Option String := none
  welcomeChannel : Option String := none
  welcomeMessage : Option String := none
  welcomeImage : Option String := none
  maxWarns : Option Int := none
  antispam : Option Bool := none
  logChannel : Option String := none
  ticketCategory : Option String := none
  ticketTranscript : Option String := none
deriving DecidableEq, Repr

/-- Reads a string field of a payload: absent (`undefined` or `null`), or a string. -/
def readString (json : JSValue) (key : String) : Option (Option String) :=
  match getProp json key with
  | .ok .undefined => some none
  | .ok .null => some none
  | .ok (.str v) => some (some v)
  | _ => none

/-- Reads an integer field of a payload: absent, or an integer of magnitude at most `2 ^ 53`. -/
def readInt (json : JSValue) (key : String) : Option (Option Int) :=
  match getProp json key with
  | .ok .undefined => some none
  | .ok .null => some none
  | .ok (.num (.dec m 0)) => if m.natAbs ≤ 2 ^ 53 then some (some m) else none
  | _ => none

/-- Reads a boolean field of a payload: absent, or a boolean. -/
def readBool (json : JSValue) (key : String) : Option (Option Bool) :=
  match getProp json key with
  | .ok .undefined => some none
  | .ok .null => some none
  | .ok (.bool b) => some (some b)
  | _ => none

/-- The payload `json` carries the guild config `c`: field by field, under the names of the
data model. -/
def describes (json : JSValue) (c : PartialConfig) : Prop :=
  readString json "prefix" = some c.prefix_ ∧
  readString json "timezone" = some c.timezone ∧
  readString json "welcomeChannel" = some c.welcomeChannel ∧
  readString json "welcomeMessage" = some c.welcomeMessage ∧
  readString json "welcomeImage" = some c.welcomeImage ∧
  readInt json "maxWarns" = some c.maxWarns ∧
  readBool json "antispam" = some c.antispam ∧
  readString json "logChannel" = some c.logChannel ∧
  readString json "ticketCategory" = some c.ticketCategory ∧
  readString json "ticketTranscript" = some c.ticketTranscript

instance (json : JSValue) (c : PartialConfig) : Decidable (describes json c) := by
  unfold describes
  infer_instance

/-- The text of the `maxWarns` control for a loaded field: empty when absent. -/
def maxWarnsText : Option Int → String
  | none => ""
  | some n => decimalString n

/-- The text of the `antispam` control for a loaded field: `"true"` when absent. -/
def antispamText : Option Bool → String
  | none => "true"
  | some b => if b then "true" else "false"

/-- The form that shows a loaded config: each control holds the field of the same name, a string
field that is absent gives the empty string, `maxWarns` is the decimal numeral or empty when
absent, `antispam` is `"true"` when absent and otherwise `"true"` or `"false"`. -/
def formOf (c : PartialConfig) : Form where
  prefixInput := c.prefix_.getD ""
  timezoneInput := c.timezone.getD ""
  welcomeChannel := c.welcomeChannel.getD ""
  welcomeMessage := c.welcomeMessage.getD ""
  welcomeImage := c.welcomeImage.getD ""
  maxWarns := maxWarnsText c.maxWarns
  antispam := antispamText c.antispam
  logChannel := c.logChannel.getD ""
  ticketCategory := c.ticketCategory.getD ""
  ticketTranscript := c.ticketTranscript.getD ""

/-- The loaded config re-normalised by the defaulting rules, as the round-trip property words
it: an absent string field becomes the empty string, an absent `maxWarns` becomes `0`, an absent
`antispam` becomes `true`, and a present field keeps its value. -/
def renormalize (c : PartialConfig) : ConfigPayload where
  prefix_ := c.prefix_.getD ""
  timezone := c.timezone.getD ""
  welcomeChannel := c.welcomeChannel.getD ""
  welcomeMessage := c.welcomeMessage.getD ""
  welcomeImage := c.welcomeImage.getD ""
  maxWarns := .ofInt (c.maxWarns.getD 0)
  antispam := c.antispam.getD true
  logChannel := c.logChannel.getD ""
  ticketCategory := c.ticketCategory.getD ""
  ticketTranscript := c.ticketTranscript.getD ""

/-- A config payload with every string field trimmed of surrounding white space. -/
def ConfigPayload.trimmed (p : ConfigPayload) : ConfigPayload :=
  { p with
    prefix_ := trim p.prefix_
    timezone := trim p.timezone
    welcomeChannel := trim p.welcomeChannel
    welcomeMessage := trim p.welcomeMessage
    welcomeImage := trim p.welcomeImage
    logChannel := trim p.logChannel
    ticketCategory := trim p.ticketCategory
    ticketTranscript := trim p.ticketTranscript }

/-- The options of a `POST` of a config payload. -/
def postOf (P : Platform) (p : ConfigPayload) : RequestInit where
  method := some "POST"
  headers := [("Content-Type", "application/json")]
  body := some (JSON_stringify P p)
  credentials := some "include"

/-- The body of a config response: a command marker followed by a space, a warning limit of
three, a welcome text, and spam moderation off. -/
def storedText : String :=
  "\x7b\"prefix\":\"! \",\"maxWarns\":3,\"welcomeMessage\":\"Hello\",\"antispam\":false\x7d"

/-- The value of `JSON.parse(storedText)`. -/
def storedJson : JSValue :=
  .obj [("prefix", .str "! "), ("maxWarns", .num (.ofInt 3)), ("welcomeMessage", .str "Hello"),
    ("antispam", .bool false)]

/-- A platform whose backend answers every request with status 200 and the body `storedText`. -/
def storedConfig : Platform where
  fetch := fun _ _ => .ok ⟨true, .ok storedText⟩
  jsonParse := fun t =>
    if t = storedText then .ok storedJson else .error ⟨.syntaxError, "Unexpected token"⟩
  numberToString := fun _ => ""
  toUpperCase := String.toUpper

/-- The guild config that `storedConfig` serves. -/
def storedPartial : PartialConfig :=
  { prefix_ := some "! ", maxWarns := some 3, welcomeMessage := some "Hello",
    antispam := some false }

/-! ## Running computations -/

@[simp] theorem JS.pure_run {α : Type} (a : α) (s : State) : (pure a : JS α) s = (.ok a, s) := rfl

@[simp] theorem JS.bind_run {α β : Type} (m : JS α) (f : α → JS β) (s : State) :
    (m >>= f) s = match m s with
      | (.ok a, s1) => f a s1
      | (.error e, s1) => (.error e, s1) := rfl

@[simp] theorem JS.modify_run (f : State → State) (s : State) :
    JS.modify f s = (.ok (), f s) := rfl

@[simp] theorem JS.get_run (s : State) : JS.get s = (.ok s, s) := rfl

@[simp] theorem JS.lift_run {α : Type} (x : Except JSError α) (s : State) :
    JS.lift x s = (x, s) := rfl

@[simp] theorem showStatus_run (msg type : String) (s : State) :
    showStatus msg type s = (.ok (), { s with
      opStatus := ⟨msg, if type = "error" then "#fca5a5" else if type = "ok" then "#bbf7d0"
        else ""⟩ }) := rfl

/-- Running `apiFetch` records one request and returns the result object `apiResult`; it does
not throw. -/
theorem apiFetch_run (P : Platform) (path : String) (opts : RequestInit) (s : State) :
    apiFetch P path opts s =
      (.ok (apiResult P path opts),
        { s with requests := s.requests ++ [⟨API_BASE ++ path, fetchInit opts⟩] }) := by
  unfold apiFetch apiResult JS.tryCatch fetch fetchInit
  simp only [JS.bind_run, JS.lift_run, JS.pure_run]
  cases hf : P.fetch (API_BASE ++ path)
      { opts with credentials := some (opts.credentials.getD "include") } with
  | error e => rfl
  | ok res =>
    cases ht : res.text with
    | error e => simp [ht]
    | ok text =>
      cases hp : P.jsonParse text with
      | error e => simp [ht, hp]
      | ok v => simp [ht, hp]

/-- A string of white space trims to the empty string. -/
theorem trim_eq_empty (t : String) (h : ∀ c ∈ t.data, isWhiteSpace c = true) : trim t = "" := by
  have h1 : t.data.dropWhile isWhiteSpace = [] := by
    rw [List.dropWhile_eq_nil_iff]; exact h
  simp [trim, trimChars, h1]

/-- The `name` of an error is not empty. -/
theorem JSError.name_ne_empty (e : JSError) : e.name ≠ "" := by
  cases e with
  | mk kind message => cases kind <;> simp [JSError.name]

/-- The error text `err.message || String(err)` is not empty. -/
theorem errorText_ne_empty (e : JSError) :
    (if e.message ≠ "" then e.message else e.toString) ≠ "" := by
  by_cases h : e.message = ""
  · simp [h, JSError.toString, JSError.name_ne_empty]
  · simp [h]

/-- C5. `apiFetch` never throws: whatever the path, the options and the answer of the platform
(a JSON body, any other body, a body that cannot be read, no response), it returns a result
object; when no response is obtained (`fetch` rejects) the result has `ok` false, no payload
(`json` is `undefined`) and an `error` that is a non-empty string. -/
theorem apiFetch_never_raises (P : Platform) (path : String) (opts : RequestInit) (s : State) :
    ∃ r : ApiResult, (apiFetch P path opts s).1 = .ok r ∧
      ∀ err, P.fetch (API_BASE ++ path) (fetchInit opts) = .error err →
        r.ok = false ∧ r.json = .undefined ∧ ∃ msg, r.error = some msg ∧ msg ≠ "" := by
  refine ⟨apiResult P path opts, by rw [apiFetch_run], ?_⟩
  intro err herr
  have hr : apiResult P path opts =
      { ok := false, error := some (if err.message ≠ "" then err.message else err.toString) } := by
    simp only [apiResult, herr]
  rw [hr]
  exact ⟨rfl, rfl, _, rfl, errorText_ne_empty err⟩

/-- Witness for C5: without connectivity `apiFetch("/api/guilds")` returns `ok` false, no payload
and a non-empty error text. -/
theorem apiFetch_never_raises_witness :
    ∃ r : ApiResult, (apiFetch offline "/api/guilds" {} sampleState).1 = .ok r ∧
      r.ok = false ∧ r.json = .undefined ∧ ∃ msg, r.error = some msg ∧ msg ≠ "" := by
  obtain ⟨r, h1, h2⟩ := apiFetch_never_raises offline "/api/guilds" {} sampleState
  exact ⟨r, h1, h2 _ rfl⟩

/-- C1. With an empty guild id and a manual-id field that is empty or holds only white space,
`saveConfigForGuild` sets the status to the validation message in the error colour and changes
nothing else: the request log is as before (no call of `fetch`) and so is every form control. -/
theorem saveConfigForGuild_requires_guild (P : Platform) (s : State)
    (h : ∀ c ∈ s.manualGuild.data, isWhiteSpace c = true) :
    saveConfigForGuild P "" s =
      (.ok (), { s with opStatus := ⟨"Please select or paste a Guild ID first.", "#fca5a5"⟩ }) := by
  have ht := trim_eq_empty s.manualGuild h
  simp [saveConfigForGuild, ht]

/-- Witness for C1: a manual-id field holding a space and a tab. -/
theorem saveConfigForGuild_requires_guild_witness :
    saveConfigForGuild offline "" { sampleState with manualGuild := " \t" } =
      (.ok (), { sampleState with
        manualGuild := " \t"
        opStatus := ⟨"Please select or paste a Guild ID first.", "#fca5a5"⟩ }) :=
  saveConfigForGuild_requires_guild offline { sampleState with manualGuild := " \t" } (by decide)

/-- Running `saveConfigForGuild` with a guild id that resolves: one request, to the config
endpoint of the resolved id. -/
theorem saveConfigForGuild_run (P : Platform) (guildId : String) (s : State)
    (h : (if guildId ≠ "" then guildId else trim s.manualGuild) ≠ "") :
    (saveConfigForGuild P guildId s).2.requests = s.requests ++
      [⟨configUrl (if guildId ≠ "" then guildId else trim s.manualGuild), postInit P s.form⟩] := by
  simp only [saveConfigForGuild, JS.bind_run, JS.get_run, showStatus_run, apiFetch_run]
  rw [if_neg h]
  simp only [JS.bind_run, showStatus_run, apiFetch_run]
  generalize (if guildId ≠ "" then guildId else trim s.manualGuild) = gid
  cases (apiResult P ("/api/guild/" ++ gid ++ "/config") _).ok <;> rfl

/-- C8. Guild id resolution in `saveConfigForGuild`: a non-empty guild id given by the caller is
the one posted to, whatever the manual-id field holds; with an empty guild id the request goes to
the manual-id field's value trimmed of white space. The save button passes the selector's
value. -/
theorem saveConfigForGuild_resolves (P : Platform) (guildId : String) (s : State) :
    (guildId ≠ "" → (saveConfigForGuild P guildId s).2.requests =
        s.requests ++ [⟨configUrl guildId, postInit P s.form⟩]) ∧
    (guildId = "" → trim s.manualGuild ≠ "" → (saveConfigForGuild P guildId s).2.requests =
        s.requests ++ [⟨configUrl (trim s.manualGuild), postInit P s.form⟩]) ∧
    saveBtnClick P s = saveConfigForGuild P s.guildSelect.value s := by
  refine ⟨fun h => ?_, fun h h2 => ?_, rfl⟩
  · have := saveConfigForGuild_run P guildId s (by simp [h])
    simpa [h] using this
  · have := saveConfigForGuild_run P guildId s (by simp [h, h2])
    simpa [h] using this

/-- Witness for C8: selector value `123` and manual field `456` post to guild 123. -/
theorem saveConfigForGuild_resolves_witness :
    (saveBtnClick offline
        { sampleState with guildSelect := ⟨[placeholder, ⟨"123", "A"⟩], "123"⟩,
                           manualGuild := "456" }).2.requests =
      [⟨"https://vorte-x--dylansaulrosa.replit.app/api/guild/123/config",
        postInit offline emptyForm⟩] :=
  (saveConfigForGuild_resolves offline "123"
    { sampleState with guildSelect := ⟨[placeholder, ⟨"123", "A"⟩], "123"⟩,
                       manualGuild := "456" }).1 (by decide)

/-- Running `loadConfigForGuild` when the request is not successful. -/
theorem loadConfigForGuild_run_failed (P : Platform) (guildId : String) (s : State)
    (hg : guildId ≠ "") (hr : (apiResult P ("/api/guild/" ++ guildId ++ "/config") {}).ok = false) :
    loadConfigForGuild P guildId s = (.ok (), { s with
      opStatus := ⟨"No config found or endpoint missing. You can still save a new config.",
        "#fca5a5"⟩
      requests := s.requests ++ [⟨configUrl guildId, getInit⟩] }) := by
  simp only [loadConfigForGuild, if_neg hg, JS.bind_run, showStatus_run, apiFetch_run, hr]
  rfl

/-- C9. When the config request is not successful (`ok` false, whether no response was obtained
or the response signals failure), `loadConfigForGuild` changes the status line and nothing else
of the document: the ten config controls are as before. With an empty guild id it makes no
request and changes the status line only. -/
theorem loadConfigForGuild_frame (P : Platform) (guildId : String) (s : State) :
    (guildId ≠ "" → (apiResult P ("/api/guild/" ++ guildId ++ "/config") {}).ok = false →
      loadConfigForGuild P guildId s = (.ok (), { s with
        opStatus := ⟨"No config found or endpoint missing. You can still save a new config.",
          "#fca5a5"⟩
        requests := s.requests ++ [⟨configUrl guildId, getInit⟩] })) ∧
    (guildId = "" →
      loadConfigForGuild P guildId s =
        (.ok (), { s with opStatus := ⟨"No guild selected.", ""⟩ })) := by
  refine ⟨loadConfigForGuild_run_failed P guildId s, fun hg => ?_⟩
  simp only [loadConfigForGuild, if_pos hg]
  rfl

/-- Witness for C9: a transport failure and a 404 answer both leave a filled form as it was. -/
theorem loadConfigForGuild_frame_witness :
    (loadConfigForGuild offline "123" { sampleState with form := { emptyForm with maxWarns := "3" } }).2.form
        = { emptyForm with maxWarns := "3" } ∧
    (loadConfigForGuild notFound "123" { sampleState with form := { emptyForm with maxWarns := "3" } }).2.form
        = { emptyForm with maxWarns := "3" } ∧
    (loadConfigForGuild notFound "" sampleState).2.requests = [] := by
  refine ⟨?_, ?_, ?_⟩
  · rw [(loadConfigForGuild_frame offline "123" _).1 (by decide) rfl]
  · rw [(loadConfigForGuild_frame notFound "123" _).1 (by decide) rfl]
  · rw [(loadConfigForGuild_frame notFound "" _).2 rfl]
    rfl

/-- Running the loop of `loadGuilds` over an array of guild summaries: one option is appended
per summary, in order. -/
theorem loadGuilds_loop (P : Platform) (items : List JSValue) :
    ∀ (gs : List GuildSummary) (s : State), readGuildSummaries items = some gs →
      (items.forM (appendGuild P)) s =
      (.ok (), { s with guildSelect := { s.guildSelect with
        options := s.guildSelect.options ++ gs.map GuildSummary.toOption } }) := by
  induction items with
  | nil =>
    intro gs s h
    simp only [readGuildSummaries, Option.some.injEq] at h
    subst h
    simp
  | cons v vs ih =>
    intro gs s h
    simp only [readGuildSummaries] at h
    cases hv : readGuildSummary v with
    | none => simp [hv] at h
    | some g =>
      cases hvs : readGuildSummaries vs with
      | none => simp [hv, hvs] at h
      | some gs1 =>
        simp only [hv, hvs, Option.some.injEq] at h
        subst h
        simp only [readGuildSummary] at hv
        split at hv
        · rename_i i n hi hn
          simp only [Option.some.injEq] at hv
          subst hv
          rw [List.forM_cons', JS.bind_run]
          have hstep : appendGuild P v s = (.ok (), { s with guildSelect := { s.guildSelect with
              options := s.guildSelect.options ++ [⟨i, n⟩] } }) := by
            simp [appendGuild, hi, hn, jsString, nullish]
          rw [hstep]
          simp only []
          rw [ih gs1 _ hvs]
          simp [GuildSummary.toOption]
        · simp at hv

/-- Running `loadGuilds` when the request is not successful. -/
theorem loadGuilds_run_failed (P : Platform) (s : State)
    (hr : (apiResult P "/api/guilds" {}).ok = false) :
    loadGuilds P s = (.ok (), { s with
      opStatus := ⟨guildsUnavailable, "#fca5a5"⟩
      requests := s.requests ++ [⟨API_BASE ++ "/api/guilds", getInit⟩] }) := by
  simp only [loadGuilds, JS.bind_run, showStatus_run, apiFetch_run, hr]
  rfl

/-- Running `loadGuilds` when the request is successful and the payload is no array. -/
theorem loadGuilds_run_unexpected (P : Platform) (s : State)
    (hr : (apiResult P "/api/guilds" {}).ok = true)
    (hj : isArray (apiResult P "/api/guilds" {}).json = false) :
    loadGuilds P s = (.ok (), { s with
      opStatus := ⟨"Unexpected response from /api/guilds", "#fca5a5"⟩
      guildSelect := ⟨[placeholder], ""⟩
      requests := s.requests ++ [⟨API_BASE ++ "/api/guilds", getInit⟩] }) := by
  simp only [loadGuilds, JS.bind_run, showStatus_run, apiFetch_run, hr, JS.modify_run]
  cases hjson : (apiResult P "/api/guilds" {}).json <;> simp [hjson, isArray] at hj ⊢ <;> rfl

/-- Running `loadGuilds` when the request is successful and the payload is an array of guild
summaries. -/
theorem loadGuilds_run_loaded (P : Platform) (s : State) (items : List JSValue)
    (gs : List GuildSummary)
    (hr : (apiResult P "/api/guilds" {}).ok = true)
    (hj : (apiResult P "/api/guilds" {}).json = .arr items)
    (hgs : readGuildSummaries items = some gs) :
    loadGuilds P s = (.ok (), { s with
      opStatus := ⟨"Servers loaded. Choose one.", "#bbf7d0"⟩
      guildSelect := ⟨placeholder :: gs.map GuildSummary.toOption, ""⟩
      requests := s.requests ++ [⟨API_BASE ++ "/api/guilds", getInit⟩] }) := by
  simp only [loadGuilds, JS.bind_run, showStatus_run, apiFetch_run, hr, JS.modify_run, hj]
  simp only [Bool.not_true, Bool.false_eq_true, if_false, JS.bind_run, JS.modify_run]
  rw [loadGuilds_loop P items gs _ hgs]
  rfl

/-- C10. When the guild-list request is not successful, `loadGuilds` leaves the selector as it
was (only the status line and the request log change). When the request is successful and the
payload is not an array, `loadGuilds` leaves the placeholder as the selector's only option and
reports the unexpected-response status, whose text differs from the one of a failed request. -/
theorem loadGuilds_frame (P : Platform) (s : State) :
    ((apiResult P "/api/guilds" {}).ok = false →
      loadGuilds P s = (.ok (), { s with
        opStatus := ⟨guildsUnavailable, "#fca5a5"⟩
        requests := s.requests ++ [⟨API_BASE ++ "/api/guilds", getInit⟩] })) ∧
    ((apiResult P "/api/guilds" {}).ok = true →
      isArray (apiResult P "/api/guilds" {}).json = false →
      loadGuilds P s = (.ok (), { s with
        opStatus := ⟨"Unexpected response from /api/guilds", "#fca5a5"⟩
        guildSelect := ⟨[placeholder], ""⟩
        requests := s.requests ++ [⟨API_BASE ++ "/api/guilds", getInit⟩] })) ∧
    "Unexpected response from /api/guilds" ≠ guildsUnavailable :=
  ⟨loadGuilds_run_failed P s, loadGuilds_run_unexpected P s, by decide⟩

/-- Witness for C10: a selector holding a guild keeps it when the request fails, and is reset to
the placeholder when the answer is an HTML page. -/
theorem loadGuilds_frame_witness :
    (loadGuilds offline
        { sampleState with guildSelect := ⟨[placeholder, ⟨"123", "Alpha"⟩], "123"⟩ }).2.guildSelect
      = ⟨[placeholder, ⟨"123", "Alpha"⟩], "123"⟩ ∧
    (loadGuilds htmlPage
        { sampleState with guildSelect := ⟨[placeholder, ⟨"123", "Alpha"⟩], "123"⟩ }).2.guildSelect
      = ⟨[placeholder], ""⟩ := by
  constructor
  · rw [(loadGuilds_frame offline _).1 rfl]
  · rw [(loadGuilds_frame htmlPage _).2.1 rfl rfl]

/-- C6. `loadGuilds` is idempotent on the selector: whatever the selector held, when the request
is successful and the payload is an array of guild summaries, after one call, and after a second
call with the same answer, the options are the placeholder with the empty value followed by one
option per summary, in the order of the answer, with the guild id as value and the guild name as
label. -/
theorem loadGuilds_idempotent (P : Platform) (s : State) (items : List JSValue)
    (gs : List GuildSummary)
    (hr : (apiResult P "/api/guilds" {}).ok = true)
    (hj : (apiResult P "/api/guilds" {}).json = .arr items)
    (hgs : readGuildSummaries items = some gs) :
    (loadGuilds P s).1 = .ok () ∧
    (loadGuilds P s).2.guildSelect.options = placeholder :: gs.map GuildSummary.toOption ∧
    (loadGuilds P (loadGuilds P s).2).1 = .ok () ∧
    (loadGuilds P (loadGuilds P s).2).2.guildSelect.options
      = placeholder :: gs.map GuildSummary.toOption ∧
    placeholder.value = "" := by
  have h1 := loadGuilds_run_loaded P s items gs hr hj hgs
  have h2 := loadGuilds_run_loaded P (loadGuilds P s).2 items gs hr hj hgs
  exact ⟨by rw [h1], by rw [h1], by rw [h2], by rw [h2], rfl⟩

/-- Witness for C6: two guilds, loaded twice over a selector that already held one of them. -/
theorem loadGuilds_idempotent_witness :
    (loadGuilds twoGuilds (loadGuilds twoGuilds
        { sampleState with guildSelect := ⟨[placeholder, ⟨"123", "Alpha"⟩], "123"⟩ }).2
      ).2.guildSelect.options
      = [⟨"", "Select a server (guild)"⟩, ⟨"123", "Alpha"⟩, ⟨"456", "Beta"⟩] :=
  (loadGuilds_idempotent twoGuilds _ _ [⟨"123", "Alpha"⟩, ⟨"456", "Beta"⟩] rfl rfl rfl).2.2.2.1

/-- A selector `#id` names one id. -/
theorem hash_append_inj (a b : String) (h : "#" ++ a = "#" ++ b) : a = b := by
  have h1 := congrArg String.data h
  simp only [String.data_append, List.append_cancel_left_eq] at h1
  exact String.ext h1

/-- No panel is visible once all are hidden. -/
theorem filter_hidden_all (ps : List Panel) :
    ((ps.map fun p => { p with hidden := true }).filter fun p => !p.hidden) = [] := by
  induction ps with
  | nil => rfl
  | cons p ps ih => simp [List.filter_cons, ih]

/-- Showing the panel of an id that some panel carries, all panels being hidden: it succeeds,
exactly that panel is visible afterwards, and the ids are as before. -/
theorem showFirst_hidden (tid : String) (ps : List Panel) (hmem : tid ∈ ps.map Panel.id) :
    ∃ r, showFirst ("#" ++ tid) (ps.map fun p => { p with hidden := true }) = some r ∧
      (r.filter fun p => !p.hidden).map Panel.id = [tid] ∧ r.map Panel.id = ps.map Panel.id := by
  induction ps with
  | nil => simp at hmem
  | cons p ps ih =>
    by_cases hp : "#" ++ p.id = "#" ++ tid
    · have hid : p.id = tid := hash_append_inj _ _ hp
      refine ⟨{ p with hidden := false } :: ps.map fun p => { p with hidden := true }, ?_, ?_, ?_⟩
      · simp [showFirst, hp]
      · simp [List.filter_cons, filter_hidden_all, hid]
      · simp [Function.comp_def]
    · have hne : tid ≠ p.id := fun h => hp (by rw [h])
      have hmem1 : tid ∈ ps.map Panel.id := by
        simp only [List.map_cons, List.mem_cons] at hmem
        rcases hmem with h | h
        · exact absurd h hne
        · exact h
      obtain ⟨r, h1, h2, h3⟩ := ih hmem1
      refine ⟨{ p with hidden := true } :: r, ?_, ?_, ?_⟩
      · simp [showFirst, hp, h1]
      · simp [List.filter_cons, h2]
      · simp [h3]

/-- The active buttons after marking, read off the `data-page` values. -/
theorem nav_active_filter (target : String) (bs : List NavBtn) :
    ((bs.map fun b => { b with active := decide (b.page = target) }).filter
        fun b => b.active).map NavBtn.page
      = (bs.map NavBtn.page).filter (fun k => decide (k = target)) := by
  induction bs with
  | nil => rfl
  | cons b bs ih =>
    by_cases hb : b.page = target <;> simp [List.filter_cons, hb, Function.comp_def] at ih ⊢ <;>
      exact ih

/-- Among buttons that carry each page key once, marking the buttons of a key active leaves
exactly the button of that key active. -/
theorem nav_active_one (target : String) (ht : target ∈ pageKeys) (bs : List NavBtn)
    (hn : (bs.map NavBtn.page).Perm pageKeys) :
    ((bs.map fun b => { b with active := decide (b.page = target) }).filter
        fun b => b.active).map NavBtn.page = [target] := by
  rw [nav_active_filter]
  have hperm := hn.filter (fun k => decide (k = target))
  have hkeys : pageKeys.filter (fun k => decide (k = target)) = [target] := by
    simp only [pageKeys, List.mem_cons, List.mem_singleton, List.not_mem_nil, or_false] at ht
    rcases ht with h | h | h | h | h | h <;> subst h <;> decide
  rw [hkeys] at hperm
  exact List.perm_singleton.mp hperm

/-- The selector that `mapping` holds for a page key. -/
theorem mapping_pageKey (target : String) (ht : target ∈ pageKeys) :
    mapping target = some ("#" ++ (target ++ "Page")) := by
  simp only [pageKeys, List.mem_cons, List.mem_singleton, List.not_mem_nil, or_false] at ht
  rcases ht with h | h | h | h | h | h <;> subst h <;> decide

/-- C7. In a document with one panel and one navigation button for each of the six page
identifiers, whatever was visible or active before, `switchPage(target)` for a target among the
six does not throw and leaves exactly one panel visible, the target's, and exactly one navigation
button active, the one whose `data-page` is the target; the panels and buttons themselves are
the same, in the same order. -/
theorem switchPage_exactly_one (P : Platform) (s : State) (target : String)
    (hp : (s.pages.map Panel.id).Perm pageIds)
    (hn : (s.navBtns.map NavBtn.page).Perm pageKeys)
    (ht : target ∈ pageKeys) :
    (switchPage P target s).1 = .ok () ∧
    visiblePanels (switchPage P target s).2 = [target ++ "Page"] ∧
    activeNav (switchPage P target s).2 = [target] ∧
    (switchPage P target s).2.pages.map Panel.id = s.pages.map Panel.id ∧
    (switchPage P target s).2.navBtns.map NavBtn.page = s.navBtns.map NavBtn.page := by
  have hmem : target ++ "Page" ∈ s.pages.map Panel.id := by
    rw [hp.mem_iff]
    exact List.mem_map.mpr ⟨target, ht, rfl⟩
  obtain ⟨r, h1, h2, h3⟩ := showFirst_hidden (target ++ "Page") s.pages hmem
  have hrun : switchPage P target s = (.ok (), { s with
      pageTitle := P.toUpperCase (String.mk (target.data.take 1)) ++ String.mk (target.data.drop 1)
      pages := r
      navBtns := s.navBtns.map fun b => { b with active := decide (b.page = target) } }) := by
    simp only [switchPage, JS.bind_run, JS.modify_run, mapping_pageKey target ht, JS.get_run, h1]
  rw [hrun]
  refine ⟨rfl, h2, nav_active_one target ht s.navBtns hn, h3, ?_⟩
  simp [Function.comp_def]

/-- Witness for C7: switching to `tickets` while the general panel is shown hides the general
panel and shows the tickets panel only. -/
theorem switchPage_exactly_one_witness :
    visiblePanels generalShown = ["generalPage"] ∧
    visiblePanels (switchPage offline "tickets" generalShown).2 = ["ticketsPage"] ∧
    activeNav (switchPage offline "tickets" generalShown).2 = ["tickets"] :=
  have h := switchPage_exactly_one offline generalShown "tickets" (List.Perm.of_eq rfl)
    (List.Perm.of_eq rfl) (by decide)
  ⟨by decide, h.2.1, h.2.2.1⟩

/-! ## Numerals -/

/-- A decimal digit character has its value and is a digit. -/
theorem digitChar_spec (k : Nat) (hk : k < 10) :
    (Nat.digitChar k).isDigit = true ∧ digitValue (Nat.digitChar k) = k := by
  interval_cases k <;> decide

/-- The value of a digit string extended by one digit. -/
theorem digitsValue_append_singleton (pre : List Char) (d : Char) :
    digitsValue 10 (pre ++ [d]) = digitsValue 10 pre * 10 + digitValue d := by
  simp [digitsValue, List.foldl_append]

/-- The digits that `Nat.toDigitsCore` puts in front of its accumulator, given enough fuel: a
non-empty string of digits whose value is the number. -/
theorem toDigitsCore_spec (fuel : Nat) :
    ∀ (n : Nat) (ds : List Char), n < fuel →
      ∃ pre, Nat.toDigitsCore 10 fuel n ds = pre ++ ds ∧ pre ≠ [] ∧
        (∀ c ∈ pre, c.isDigit = true) ∧ digitsValue 10 pre = n := by
  induction fuel with
  | zero => intro n ds h; omega
  | succ fuel ih =>
    intro n ds h
    simp only [Nat.toDigitsCore]
    by_cases h0 : n / 10 = 0
    · have hn : n < 10 := by omega
      have hd := digitChar_spec (n % 10) (Nat.mod_lt _ (by decide))
      refine ⟨[Nat.digitChar (n % 10)], by simp [h0], by simp, ?_, ?_⟩
      · intro c hc
        simp only [List.mem_singleton] at hc
        rw [hc]; exact hd.1
      · rw [Nat.mod_eq_of_lt hn] at hd ⊢
        simp [digitsValue, hd.2]
    · have hlt : n / 10 < fuel := by omega
      obtain ⟨pre, h1, _, h3, h4⟩ := ih (n / 10) (Nat.digitChar (n % 10) :: ds) hlt
      have hd := digitChar_spec (n % 10) (Nat.mod_lt _ (by decide))
      refine ⟨pre ++ [Nat.digitChar (n % 10)], by simp [h0, h1], by simp, ?_, ?_⟩
      · intro c hc
        simp only [List.mem_append, List.mem_singleton] at hc
        rcases hc with hc | hc
        · exact h3 c hc
        · rw [hc]; exact hd.1
      · rw [digitsValue_append_singleton, h4, hd.2]
        omega

/-- The decimal numeral of a natural number: non-empty, digits only, with the number as value. -/
theorem repr_spec (n : Nat) :
    (Nat.repr n).data ≠ [] ∧ (∀ c ∈ (Nat.repr n).data, c.isDigit = true) ∧
      digitsValue 10 (Nat.repr n).data = n := by
  obtain ⟨pre, h1, h2, h3, h4⟩ := toDigitsCore_spec (n + 1) n [] (Nat.lt_succ_self n)
  have hdata : (Nat.repr n).data = pre := by
    simp [Nat.repr, Nat.toDigits, h1, List.asString]
  rw [hdata]
  exact ⟨h2, h3, h4⟩

/-- A digit is not white space. -/
theorem isWhiteSpace_of_isDigit (c : Char) (h : c.isDigit = true) : isWhiteSpace c = false := by
  have h1 : 48 ≤ c.toNat ∧ c.toNat ≤ 57 := by
    simp only [Char.isDigit, Bool.and_eq_true, decide_eq_true_eq] at h
    exact ⟨h.1, h.2⟩
  simp only [isWhiteSpace, Bool.or_eq_false_iff, decide_eq_false_iff_not, Bool.and_eq_false_imp,
    decide_eq_true_eq]
  omega

/-- Trimming leaves a list alone when it neither starts nor ends with white space. -/
theorem trimChars_eq_self (cs : List Char) (h : ∀ c ∈ cs, isWhiteSpace c = false) :
    trimChars cs = cs := by
  have hdrop : ∀ l : List Char, (∀ c ∈ l, isWhiteSpace c = false) →
      l.dropWhile isWhiteSpace = l := by
    intro l hl
    cases l with
    | nil => rfl
    | cons a l => simp [List.dropWhile_cons, hl a (List.mem_cons_self _ _)]
  unfold trimChars
  rw [hdrop cs h, hdrop cs.reverse (fun c hc => h c (List.mem_reverse.mp hc)), List.reverse_reverse]

/-- A non-empty string of digits, read as an unsigned decimal literal, is its value. -/
theorem parseUnsignedDecimal_digits (cs : List Char) (hne : cs ≠ [])
    (hd : ∀ c ∈ cs, c.isDigit = true) :
    parseUnsignedDecimal cs = some (.dec (Int.ofNat (digitsValue 10 cs)) 0) := by
  have hinf : cs ≠ "Infinity".data := by
    intro h
    have := hd 'I' (by rw [h]; decide)
    exact absurd this (by decide)
  have htake : cs.takeWhile Char.isDigit = cs := by
    rw [List.takeWhile_eq_self_iff]; exact hd
  have hdrop : cs.dropWhile Char.isDigit = [] := by
    rw [List.dropWhile_eq_nil_iff]; exact hd
  simp [parseUnsignedDecimal, hinf, htake, hdrop, hne, JSNumber.scientific]

/-- A non-empty string of digits, read as a numeric literal, is its value. -/
theorem parseStrNumericLiteral_digits (cs : List Char) (hne : cs ≠ [])
    (hd : ∀ c ∈ cs, c.isDigit = true) :
    parseStrNumericLiteral cs = some (.dec (Int.ofNat (digitsValue 10 cs)) 0) := by
  rw [← parseUnsignedDecimal_digits cs hne hd]
  unfold parseStrNumericLiteral
  split
  all_goals first
    | rfl
    | (rename_i ds; exfalso
       have h1 := hd _ (List.mem_cons_of_mem _ (List.mem_cons_self _ _))
       revert h1; decide)
    | (rename_i ds; exfalso
       have h1 := hd _ (List.mem_cons_self _ _)
       revert h1; decide)

/-- The conversion `StringToNumber` reads the decimal numeral of an integer as that integer. -/
theorem StringToNumber_decimalString (n : Int) :
    StringToNumber (decimalString n) = .ofInt n := by
  obtain ⟨hne, hd, hv⟩ := repr_spec n.natAbs
  by_cases hn : n < 0
  · have hdata : (decimalString n).data = '-' :: (Nat.repr n.natAbs).data := by
      simp [decimalString, hn, String.data_append]
    have hws : ∀ c ∈ '-' :: (Nat.repr n.natAbs).data, isWhiteSpace c = false := by
      intro c hc
      rcases List.mem_cons.mp hc with h | h
      · rw [h]; decide
      · exact isWhiteSpace_of_isDigit c (hd c h)
    have hparse : parseStrNumericLiteral ('-' :: (Nat.repr n.natAbs).data) =
        (parseUnsignedDecimal (Nat.repr n.natAbs).data).map JSNumber.neg := rfl
    simp only [StringToNumber, hdata, trimChars_eq_self _ hws, hparse,
      parseUnsignedDecimal_digits _ hne hd, hv]
    simp only [reduceCtorEq, if_false, Option.map_some', Option.getD_some, JSNumber.neg,
      JSNumber.ofInt, JSNumber.dec.injEq, and_true, Int.ofNat_eq_coe]
    omega
  · have hdata : (decimalString n).data = (Nat.repr n.natAbs).data := by
      simp [decimalString, hn]
    have hws : ∀ c ∈ (Nat.repr n.natAbs).data, isWhiteSpace c = false :=
      fun c hc => isWhiteSpace_of_isDigit c (hd c hc)
    simp only [StringToNumber, hdata, trimChars_eq_self _ hws, if_neg hne,
      parseStrNumericLiteral_digits _ hne hd, hv, Option.getD_some, JSNumber.ofInt,
      JSNumber.dec.injEq, and_true, Int.ofNat_eq_coe]
    omega

/-- The integer a form control holds as a decimal numeral is what `Number(value || 0)` gives. -/
theorem Number_decimalString (P : Platform) (n : Int) :
    Number P (jsOr (.str (decimalString n)) (.num (.ofInt 0))) = .ofInt n := by
  have hne : decimalString n ≠ "" := by
    obtain ⟨hne, _, _⟩ := repr_spec n.natAbs
    intro h
    have h1 := congrArg String.data h
    by_cases hn : n < 0
    · simp [decimalString, hn, String.data_append] at h1
    · simp only [decimalString, hn, if_false] at h1
      exact hne h1
  simp [jsOr, truthy, hne, Number, StringToNumber_decimalString]

/-- What `loadConfigForGuild` writes into a text control for a string field that was read. -/
theorem readString_spec (P : Platform) (json : JSValue) (key : String) (o : Option String)
    (h : readString json key = some o) :
    ∃ v, getProp json key = .ok v ∧ jsString P (nullish v (.str "")) = o.getD "" := by
  unfold readString at h
  split at h <;> simp at h <;> subst h <;> rename_i hv <;>
    exact ⟨_, hv, by simp [nullish, jsString]⟩

/-- What `loadConfigForGuild` writes into the `maxWarns` control for a field that was read. -/
theorem readInt_spec (P : Platform) (json : JSValue) (key : String) (o : Option Int)
    (h : readInt json key = some o) :
    ∃ v, getProp json key = .ok v ∧
      jsString P (nullish v (.str "")) = maxWarnsText o := by
  unfold readInt at h
  split at h
  · simp at h; subst h; rename_i hv; exact ⟨_, hv, by simp [nullish, jsString, maxWarnsText]⟩
  · simp at h; subst h; rename_i hv; exact ⟨_, hv, by simp [nullish, jsString, maxWarnsText]⟩
  · rename_i m hv
    split at h
    · rename_i hm
      simp at h; subst h
      refine ⟨_, hv, ?_⟩
      have hlt : m.natAbs < 1000000000000000000000 := lt_of_le_of_lt hm (by norm_num)
      simp [nullish, jsString, JSNumber.normalize, maxWarnsText]
      intro hge
      omega
    · simp at h
  · simp at h

/-- What `loadConfigForGuild` writes into the `antispam` control for a field that was read. -/
theorem readBool_spec (P : Platform) (json : JSValue) (key : String) (o : Option Bool)
    (h : readBool json key = some o) :
    ∃ v, getProp json key = .ok v ∧
      jsString P (.str (jsString P (nullish v (.str "true")))) = antispamText o := by
  unfold readBool at h
  split at h <;> simp at h <;> subst h <;> rename_i hv <;>
    exact ⟨_, hv, by simp [nullish, jsString, antispamText]⟩

/-- Running `loadConfigForGuild` when the request is successful and the payload carries a guild
config: the controls show the config, the status reports the load, one request was made. -/
theorem loadConfigForGuild_run_loaded (P : Platform) (guildId : String) (s : State)
    (json : JSValue) (c : PartialConfig) (hg : guildId ≠ "")
    (hok : (apiResult P ("/api/guild/" ++ guildId ++ "/config") {}).ok = true)
    (hjson : (apiResult P ("/api/guild/" ++ guildId ++ "/config") {}).json = json)
    (hc : describes json c) :
    loadConfigForGuild P guildId s = (.ok (), { s with
      form := formOf c
      opStatus := ⟨"Configuration loaded.", "#bbf7d0"⟩
      requests := s.requests ++ [⟨configUrl guildId, getInit⟩] }) := by
  obtain ⟨h1, h2, h3, h4, h5, h6, h7, h8, h9, h10⟩ := hc
  obtain ⟨v1, g1, e1⟩ := readString_spec P _ _ _ h1
  obtain ⟨v2, g2, e2⟩ := readString_spec P _ _ _ h2
  obtain ⟨v3, g3, e3⟩ := readString_spec P _ _ _ h3
  obtain ⟨v4, g4, e4⟩ := readString_spec P _ _ _ h4
  obtain ⟨v5, g5, e5⟩ := readString_spec P _ _ _ h5
  obtain ⟨v6, g6, e6⟩ := readInt_spec P _ _ _ h6
  obtain ⟨v7, g7, e7⟩ := readBool_spec P _ _ _ h7
  obtain ⟨v8, g8, e8⟩ := readString_spec P _ _ _ h8
  obtain ⟨v9, g9, e9⟩ := readString_spec P _ _ _ h9
  obtain ⟨v10, g10, e10⟩ := readString_spec P _ _ _ h10
  simp only [loadConfigForGuild, if_neg hg, JS.bind_run, showStatus_run, apiFetch_run, hok, hjson,
    JS.lift_run, setForm, JS.modify_run, g1, g2, g3, g4, g5, g6, g7, g8, g9, g10,
    e1, e2, e3, e4, e5, e6, e7, e8, e9, e10, Bool.not_true, Bool.false_eq_true, if_false]
  rfl

/-- The payload built from the form that shows a config is the config re-normalised, with
every string field trimmed. -/
theorem buildPayload_formOf (P : Platform) (c : PartialConfig) :
    buildPayload P (formOf c) = (renormalize c).trimmed := by
  have hmax : Number P (jsOr (.str (formOf c).maxWarns) (.num (.ofInt 0)))
      = .ofInt (c.maxWarns.getD 0) := by
    cases hw : c.maxWarns with
    | none => simp [formOf, maxWarnsText, hw, jsOr, truthy, Number]
    | some n => simp [formOf, maxWarnsText, hw, Number_decimalString]
  have hanti : decide ((formOf c).antispam = "true") = c.antispam.getD true := by
    cases ha : c.antispam with
    | none => simp [formOf, antispamText, ha]
    | some b => cases b <;> simp [formOf, antispamText, ha]
  simp only [buildPayload, hmax, hanti]
  rfl

set_option maxRecDepth 100000 in
/-- C3, counterexample. A loaded command marker `"! "` does not keep its value through a load
followed by a save: the request body carries `"!"`, while the loaded config re-normalised by
the defaulting rules carries `"! "`. -/
theorem roundtrip_changes_padded_string :
    describes storedJson storedPartial ∧
    (loadConfigForGuild storedConfig "1" sampleState).2.form.prefixInput = "! " ∧
    ((saveConfigForGuild storedConfig "1"
        (loadConfigForGuild storedConfig "1" sampleState).2).2.requests.map fun r => r.init.body) =
      [none, some ("\x7b\"prefix\":\"!\",\"timezone\":\"\",\"welcomeChannel\":\"\"," ++
        "\"welcomeMessage\":\"Hello\",\"welcomeImage\":\"\",\"maxWarns\":3,\"antispam\":false," ++
        "\"logChannel\":\"\",\"ticketCategory\":\"\",\"ticketTranscript\":\"\"\x7d")] ∧
    JSON_stringify storedConfig (renormalize storedPartial) =
      "\x7b\"prefix\":\"! \",\"timezone\":\"\",\"welcomeChannel\":\"\"," ++
        "\"welcomeMessage\":\"Hello\",\"welcomeImage\":\"\",\"maxWarns\":3,\"antispam\":false," ++
        "\"logChannel\":\"\",\"ticketCategory\":\"\",\"ticketTranscript\":\"\"\x7d" ∧
    ((saveConfigForGuild storedConfig "1"
        (loadConfigForGuild storedConfig "1" sampleState).2).2.requests.map fun r => r.init.body) ≠
      [none, some (JSON_stringify storedConfig (renormalize storedPartial))] := by
  decide

/-- C3, amended. Load-then-save round trip: when a load is successful and its payload carries a
guild config, the request that `saveConfigForGuild` sends right afterwards, with no edits, posts
the loaded config re-normalised by the defaulting rules (an absent string field becomes the empty
string, an absent `maxWarns` becomes `0`, an absent `antispam` becomes `true`) with `maxWarns`
and `antispam` keeping their values when present and every string field trimmed of surrounding
white space. -/
theorem load_then_save_roundtrip (P : Platform) (guildId : String) (s : State)
    (json : JSValue) (c : PartialConfig) (hg : guildId ≠ "")
    (hok : (apiResult P ("/api/guild/" ++ guildId ++ "/config") {}).ok = true)
    (hjson : (apiResult P ("/api/guild/" ++ guildId ++ "/config") {}).json = json)
    (hc : describes json c) :
    (saveConfigForGuild P guildId (loadConfigForGuild P guildId s).2).2.requests =
      s.requests ++ [⟨configUrl guildId, getInit⟩,
        ⟨configUrl guildId, postOf P (renormalize c).trimmed⟩] := by
  rw [loadConfigForGuild_run_loaded P guildId s json c hg hok hjson hc]
  rw [saveConfigForGuild_run P guildId _ (by simp [hg])]
  simp only [if_pos hg, postInit, buildPayload_formOf, postOf, List.append_assoc,
    List.singleton_append]

/-- Witness for C3: the stored config, loaded and saved for guild 1. -/
theorem load_then_save_roundtrip_witness :
    (saveConfigForGuild storedConfig "1"
        (loadConfigForGuild storedConfig "1" sampleState).2).2.requests =
      [⟨configUrl "1", getInit⟩,
        ⟨configUrl "1", postOf storedConfig
          { renormalize storedPartial with prefix_ := "!" }⟩] :=
  load_then_save_roundtrip storedConfig "1" sampleState storedJson storedPartial (by decide)
    rfl rfl (by decide)

/-- C4, the failing input. A successful response whose body is the JSON text `null`: `apiFetch`
returns `ok` true with the payload `null`, and `loadConfigForGuild` throws a `TypeError` at
`json.prefix`, after the status line announced the load; no control is filled. -/
theorem loadConfigForGuild_null_payload :
    (apiResult nullBody "/api/guild/123/config" {}).ok = true ∧
    (apiResult nullBody "/api/guild/123/config" {}).json = .null ∧
    loadConfigForGuild nullBody "123"
        { sampleState with form := { emptyForm with maxWarns := "3" } } =
      (.error ⟨.typeError, "Cannot read properties of null (reading 'prefix')"⟩,
        { sampleState with
          form := { emptyForm with maxWarns := "3" }
          opStatus := ⟨"Loading server configuration...", ""⟩
          requests := [⟨configUrl "123", getInit⟩] }) :=
  ⟨rfl, rfl, rfl⟩

end VorteX
